import Mathlib

/-!
Verification of the ICC rule-engine validation core (`app/services/validator.py`,
`app/routers/validate.py`).  The Python code is shallowly embedded: document
field values become an explicit `Value` type with Python truthiness, the
pseudo-logic interpreter `_execute_rule_logic` becomes a total Lean function
whose internal `try/except` is an `Except` channel, the dispatcher loop becomes
explicit state passing, and the audit-trail grouping key becomes a string
computation over an explicit timestamp structure.
-/

namespace ICC

/-- Status enum shared by `app.schemas.validation.ValidationStatus` and
`app.models.validation.ValidationStatus` (both have exactly the variants
PASS / FAIL / WARNING; the dispatcher maps one onto the other by identity). -/
inductive ValidationStatus where
  | pass
  | fail
  | warning
deriving DecidableEq, Repr

/-- Rule type enum `app.models.rule.RuleType`. -/
inductive RuleType where
  | codable
  | ai_assisted
deriving DecidableEq, Repr

/-- A Python value as it appears in `document_data` for the fields the
interpreter reads: a string, a number, or `None`.  A missing key behaves as
`None` because `_execute_rule_logic` reads fields with `document_data.get`.
Numbers are modelled as exact decimals (integer numerator over a power-of-ten
denominator); the `documents` field (read but never used by the interpreter)
is omitted. -/
inductive Value where
  | vstr (s : String)
  | vnum (n : Int)
  | vnone
deriving DecidableEq, Repr

/-- Python truthiness for the modelled values: `""`, `0` and `None` are falsy,
everything else is truthy.  This is what the guards
`... and expiry_date`, `... and amount` etc. in `_execute_rule_logic` test. -/
def Value.truthy : Value → Bool
  | .vstr s => !s.isEmpty
  | .vnum n => n != 0
  | .vnone => false

/-- Rendering of a value inside an f-string / `str(e)` message
(`f"Currency {currency} is acceptable"`, `f"Unable to parse date: {date_str}"`). -/
def Value.toText : Value → String
  | .vstr s => s
  | .vnum n => toString n
  | .vnone => "None"

/-- The document fields extracted at the top of `_execute_rule_logic` via
`document_data.get(...)`; a key absent from the submitted mapping is `vnone`. -/
structure Document where
  expiry_date : Value := .vnone
  shipment_date : Value := .vnone
  presentation_date : Value := .vnone
  amount : Value := .vnone
  currency : Value := .vnone
deriving DecidableEq, Repr

/-- `app.models.rule.Rule`, restricted to the columns the validation engine
reads: `id` (internal PK, used as the FK of stored records), `rule_id`
(external identifier), `text`, `type` and the optional `logic`. -/
structure Rule where
  id : Nat
  rule_id : String
  text : String
  type : RuleType
  logic : Option String := none
deriving DecidableEq, Repr

/-- `app.schemas.validation.ValidationResult`: the normalized per-rule verdict. -/
structure ValidationResult where
  rule_id : String
  rule_text : String
  status : ValidationStatus
  details : String
  confidence_score : String
deriving DecidableEq, Repr

/-- `ValidationEngine._determine_overall_status`: strict precedence
Fail > Warning > Pass over the three accumulated counts. -/
def determine_overall_status (passed failed warnings : Nat) : ValidationStatus :=
  if failed > 0 then .fail
  else if warnings > 0 then .warning
  else .pass

/-- Python `rule.text[:200] + "..." if len(rule.text) > 200 else rule.text`
(and the 100-character variant used by the history read path). -/
def truncText (n : Nat) (t : String) : String :=
  if t.length > n then String.mk (t.toList.take n) ++ "..." else t

/-- `charsStartWith p s` : `p` is an initial segment of `s`. -/
def charsStartWith : List Char → List Char → Bool
  | [], _ => true
  | _ :: _, [] => false
  | a :: as, b :: bs => a == b && charsStartWith as bs

/-- `charsContainsSub p s` : `p` occurs as a contiguous run inside `s`. -/
def charsContainsSub (pat : List Char) : List Char → Bool
  | [] => pat.isEmpty
  | b :: bs => charsStartWith pat (b :: bs) || charsContainsSub pat bs

/-- The Python substring test `pat in logic` used by the interpreter's guards. -/
def strContains (pat s : String) : Bool :=
  charsContainsSub pat.toList s.toList

/-- Split on a single-character separator, Python `s.split(sep)` semantics
(`"a--b".split("-") == ["a", "", "b"]`, `"".split("-") == [""]`). -/
def splitOnChar (sep : Char) : List Char → List (List Char)
  | [] => [[]]
  | c :: rest =>
    if c == sep then [] :: splitOnChar sep rest
    else
      match splitOnChar sep rest with
      | [] => [[c]]
      | g :: gs => (c :: g) :: gs

def strSplit (sep : Char) (s : String) : List String :=
  (splitOnChar sep s.toList).map String.mk

def digitsVal (cs : List Char) : Nat :=
  cs.foldl (fun a c => a * 10 + (c.toNat - 48)) 0

def allDigits (cs : List Char) : Bool :=
  !cs.isEmpty && cs.all Char.isDigit

/-- A naive (timezone-free) Python `datetime`, as produced by
`ValidationEngine._parse_date`.  Timezone-aware ISO inputs (offset suffixes,
the `Z`-to-`+00:00` rewrite) are outside the modelled input space. -/
structure PyDateTime where
  year : Nat
  month : Nat
  day : Nat
  hour : Nat := 0
  minute : Nat := 0
  second : Nat := 0
  microsecond : Nat := 0
deriving DecidableEq, Repr

/-- Injective monotone encoding of the lexicographic datetime order: each
component is strictly below its radix for every constructible datetime
(month ≤ 12 < 13, day ≤ 31 < 32, hour < 24, minute/second < 60,
microsecond < 10^6), so comparing keys is comparing datetimes. -/
def PyDateTime.key (d : PyDateTime) : Nat :=
  (((((d.year * 13 + d.month) * 32 + d.day) * 24 + d.hour) * 60 + d.minute)
      * 60 + d.second) * 1000000 + d.microsecond

/-- Python `datetime` comparison `a <= b`. -/
def PyDateTime.le (a b : PyDateTime) : Bool :=
  a.key ≤ b.key

def isLeapYear (y : Nat) : Bool :=
  y % 4 == 0 && (y % 100 != 0 || y % 400 == 0)

def daysInMonth (y m : Nat) : Nat :=
  if m == 2 then (if isLeapYear y then 29 else 28)
  else if m == 4 || m == 6 || m == 9 || m == 11 then 30
  else 31

/-- The range checks the `datetime` constructor performs after `strptime`'s
regex match: `MINYEAR <= year <= MAXYEAR` and a calendar-valid day. -/
def validYMD (y m d : Nat) : Bool :=
  1 ≤ y && y ≤ 9999 && 1 ≤ d && d ≤ daysInMonth y m

/-- `strptime`'s `%Y` field: exactly four digits. -/
def parseY4 (s : String) : Option Nat :=
  let cs := s.toList
  if cs.length == 4 && allDigits cs then some (digitsVal cs) else none

/-- One- or two-digit numeric field with an inclusive value range
(`strptime`'s `%m` is 1..12, `%d` 1..31, `%H` 0..23, `%M`/`%S` 0..59). -/
def parseNum2 (lo hi : Nat) (s : String) : Option Nat :=
  let cs := s.toList
  if (cs.length == 1 || cs.length == 2) && allDigits cs then
    let n := digitsVal cs
    if lo ≤ n && n ≤ hi then some n else none
  else none

/-- Exactly-two-digit numeric field (the strict form `fromisoformat` needs). -/
def parseNum2Strict (hi : Nat) (s : String) : Option Nat :=
  let cs := s.toList
  if cs.length == 2 && allDigits cs then
    let n := digitsVal cs
    if n ≤ hi then some n else none
  else none

/-- Format `"%Y-%m-%d"` (first entry of `_parse_date`'s format list). -/
def tryYMD (s : String) : Option PyDateTime :=
  match strSplit '-' s with
  | [y, m, d] => do
    let yr ← parseY4 y
    let mo ← parseNum2 1 12 m
    let dy ← parseNum2 1 31 d
    if validYMD yr mo dy then some ⟨yr, mo, dy, 0, 0, 0, 0⟩ else none
  | _ => none

/-- Format `"%d-%m-%Y"`. -/
def tryDMY (s : String) : Option PyDateTime :=
  match strSplit '-' s with
  | [d, m, y] => do
    let dy ← parseNum2 1 31 d
    let mo ← parseNum2 1 12 m
    let yr ← parseY4 y
    if validYMD yr mo dy then some ⟨yr, mo, dy, 0, 0, 0, 0⟩ else none
  | _ => none

/-- Format `"%m/%d/%Y"`. -/
def tryMDY (s : String) : Option PyDateTime :=
  match strSplit '/' s with
  | [m, d, y] => do
    let mo ← parseNum2 1 12 m
    let dy ← parseNum2 1 31 d
    let yr ← parseY4 y
    if validYMD yr mo dy then some ⟨yr, mo, dy, 0, 0, 0, 0⟩ else none
  | _ => none

/-- The `"%H:%M:%S"` tail of the fourth format. -/
def tryHMS (s : String) : Option (Nat × Nat × Nat) :=
  match strSplit ':' s with
  | [h, mi, se] => do
    let hh ← parseNum2 0 23 h
    let mm ← parseNum2 0 59 mi
    let ss ← parseNum2 0 59 se
    some (hh, mm, ss)
  | _ => none

/-- Format `"%Y-%m-%d %H:%M:%S"` (single-space separator). -/
def tryYMDHMS (s : String) : Option PyDateTime :=
  match strSplit ' ' s with
  | [dpart, tpart] => do
    let d ← tryYMD dpart
    let (hh, mm, ss) ← tryHMS tpart
    some { d with hour := hh, minute := mm, second := ss }
  | _ => none

/-- `datetime.fromisoformat` fallback, restricted to naive inputs: a strict
`YYYY-MM-DD` date part, optionally followed by a one-character separator and
`HH:MM[:SS]` with two-digit fields.  Offsets and fractional seconds (which
only arise from timezone-aware inputs or microsecond-precision strings) are
outside the modelled input space. -/
def tryIso (s : String) : Option PyDateTime :=
  let cs := s.toList
  if cs.length < 10 then none
  else
    let dateCs := cs.take 10
    let dt? : Option PyDateTime :=
      match splitOnChar '-' dateCs with
      | [y, m, d] => do
        let yr ← if y.length == 4 && allDigits y then some (digitsVal y) else none
        let mo ← parseNum2Strict 12 (String.mk m)
        let dy ← parseNum2Strict 31 (String.mk d)
        if 1 ≤ mo && validYMD yr mo dy then some ⟨yr, mo, dy, 0, 0, 0, 0⟩ else none
      | _ => none
    match dt? with
    | none => none
    | some dt =>
      if cs.length == 10 then some dt
      else
        let timeCs := cs.drop 11
        match splitOnChar ':' timeCs with
        | [h, mi] => do
          let hh ← parseNum2Strict 23 (String.mk h)
          let mm ← parseNum2Strict 59 (String.mk mi)
          some { dt with hour := hh, minute := mm }
        | [h, mi, se] => do
          let hh ← parseNum2Strict 23 (String.mk h)
          let mm ← parseNum2Strict 59 (String.mk mi)
          let ss ← parseNum2Strict 59 (String.mk se)
          some { dt with hour := hh, minute := mm, second := ss }
        | _ => none

/-- `ValidationEngine._parse_date`: try the four `strptime` formats in order,
then the ISO fallback; on total failure raise
`ValueError(f"Unable to parse date: {date_str}")` (a non-string argument makes
`strptime` raise a `TypeError`, which the bare `except` also rewraps into the
same `ValueError`).  The exception channel is the `Except` error. -/
def parse_date (v : Value) : Except String PyDateTime :=
  match v with
  | .vstr s =>
    match tryYMD s <|> tryDMY s <|> tryMDY s <|> tryYMDHMS s <|> tryIso s with
    | some d => .ok d
    | none => .error ("Unable to parse date: " ++ s)
  | w => .error ("Unable to parse date: " ++ w.toText)

/-- The exact value `num / den` (with `den` a positive power of ten) of a
numeric literal handed to Python `float`.  The interpreter only ever compares
the conversion's result with zero, and `float` produces the IEEE-754 double
nearest the exact value (round-to-nearest, ties-to-even), so the comparison is
embedded through that rounding (`PyFloat.posAsDouble`), not on the exact
value: tiny positive literals underflow to `0.0`. -/
structure PyFloat where
  num : Int
  den : Nat
deriving DecidableEq, Repr

/-- The numeral `2 ^ 1075` written out, so that evaluating proofs never has
to unfold a unary power recursion; `pow2_1075_eq` proves the identity. -/
def pow2_1075 : Nat := 404804506614621236704990693437834614099113299528284236713802716054860679135990693783920767402874248990374155728633623822779617474771586953734026799881477019843034848553132722728933815484186432682479535356945490137124014966849385397236206711298319112681620113024717539104666829230461005064372655017292012526615415482186989568

/-- The comparison `float(amount) > 0` as it acts on the rounded double: a
real `r > 0` converts to a positive double iff `r > 2^(-1075)` (half the least
positive subnormal `2^(-1074)`; the tie itself rounds to the even `0.0`, and
any smaller magnitude rounds down to `0.0`).  Zero and negative values give
`0.0`/`-0.0` or a negative double, comparing false; positive values beyond the
double range overflow to `+inf`, comparing true.  So over `num / den`:
`num * 2^1075 > den`. -/
def PyFloat.posAsDouble (f : PyFloat) : Bool :=
  (f.den : Int) < f.num * (pow2_1075 : Int)

def signSplit : List Char → Int × List Char
  | '+' :: rest => (1, rest)
  | '-' :: rest => (-1, rest)
  | cs => (1, cs)

/-- Mantissa `ddd[.ddd]` (either side may be empty but not both), returning
the digit value and the number of fractional digits. -/
def parseMantissa (cs : List Char) : Option (Nat × Nat) :=
  match splitOnChar '.' cs with
  | [ip] => if allDigits ip then some (digitsVal ip, 0) else none
  | [ip, fp] =>
    if (ip.isEmpty || ip.all Char.isDigit) && (fp.isEmpty || fp.all Char.isDigit)
        && !(ip.isEmpty && fp.isEmpty) then
      some (digitsVal (ip ++ fp), fp.length)
    else none
  | _ => none

def mkPyFloat (sign : Int) (mant : Nat) (fracLen : Nat) (exp : Int) : PyFloat :=
  let net : Int := exp - fracLen
  if 0 ≤ net then ⟨sign * mant * 10 ^ net.toNat, 1⟩
  else ⟨sign * mant, 10 ^ (-net).toNat⟩

/-- Python `float(s)` on a string, over the core numeric grammar
`[+-]? digits [. digits] [eE [+-] digits]` (case-insensitive exponent marker).
Surrounding whitespace, digit-group underscores and the `inf`/`nan` spellings
are outside the modelled input space.  `none` is the `ValueError` the
interpreter catches as "Invalid amount format". -/
def parseFloatStr (s : String) : Option PyFloat :=
  let (sign, rest) := signSplit (s.toList.map Char.toLower)
  match splitOnChar 'e' rest with
  | [mant] => do
    let (m, k) ← parseMantissa mant
    some (mkPyFloat sign m k 0)
  | [mant, ex] => do
    let (m, k) ← parseMantissa mant
    let (esign, edigits) := signSplit ex
    if allDigits edigits then some (mkPyFloat sign m k (esign * digitsVal edigits))
    else none
  | _ => none

/-- Python `float(amount)` for the modelled values: a number converts to
itself (integer amounts are taken within the double range — `float` on a
larger int raises `OverflowError`, outside the modelled input space), a string
goes through the numeric grammar. -/
def parse_float (v : Value) : Option PyFloat :=
  match v with
  | .vnum n => some ⟨n, 1⟩
  | .vstr s => parseFloatStr s
  | .vnone => none

/-- Outcome dictionary of `_execute_rule_logic`:
`{"status": ..., "details": ...}`. -/
structure LogicResult where
  status : Bool
  details : String
deriving DecidableEq, Repr

/-- First pattern body: `expiry_date >= shipment_date` — parse expiry first,
then shipment; either parse failure raises through to the interpreter's outer
handler (the `Except` error). -/
def checkExpiryShipment (doc : Document) : Except String LogicResult := do
  let e ← parse_date doc.expiry_date
  let s ← parse_date doc.shipment_date
  if PyDateTime.le s e then
    pure ⟨true, "Expiry date is after shipment date"⟩
  else
    pure ⟨false, "Expiry date is before shipment date"⟩

/-- Second pattern body: `shipment_date <= presentation_date`. -/
def checkShipmentPresentation (doc : Document) : Except String LogicResult := do
  let s ← parse_date doc.shipment_date
  let p ← parse_date doc.presentation_date
  if PyDateTime.le s p then
    pure ⟨true, "Shipment date is before or equal to presentation date"⟩
  else
    pure ⟨false, "Shipment date is after presentation date"⟩

/-- Third pattern body: `currency in ["USD", "EUR", "GBP", "JPY"]` (no parse,
cannot raise). -/
def checkCurrency (currency : Value) : LogicResult :=
  if currency == .vstr "USD" || currency == .vstr "EUR"
      || currency == .vstr "GBP" || currency == .vstr "JPY" then
    ⟨true, "Currency " ++ currency.toText ++ " is acceptable"⟩
  else
    ⟨false, "Currency " ++ currency.toText ++ " may not be acceptable"⟩

/-- Fourth pattern body: `float(amount)` under a local `except ValueError`
returning "Invalid amount format"; the `amount_value > 0` comparison happens
on the rounded double (`posAsDouble`).  A non-string non-number amount would
make `float` raise a `TypeError` that escapes the local handler (unreachable
here: the guard requires a truthy amount, and `vnone` is the only such
value). -/
def checkAmount (amount : Value) : Except String LogicResult :=
  match amount with
  | .vnone => .error "float() argument must be a string or a number"
  | a =>
    match parse_float a with
    | some f =>
      if f.posAsDouble then .ok ⟨true, "Amount is positive"⟩
      else .ok ⟨false, "Amount must be positive"⟩
    | none => .ok ⟨false, "Invalid amount format"⟩

/-- Guard of the first pattern:
`"expiry_date >= shipment_date" in logic and expiry_date and shipment_date`. -/
def guardExpiryShipment (logic : String) (doc : Document) : Bool :=
  strContains "expiry_date >= shipment_date" logic
    && doc.expiry_date.truthy && doc.shipment_date.truthy

/-- Guard of the second pattern. -/
def guardShipmentPresentation (logic : String) (doc : Document) : Bool :=
  strContains "shipment_date <= presentation_date" logic
    && doc.shipment_date.truthy && doc.presentation_date.truthy

/-- Guard of the third pattern: `"currency" in logic and currency`. -/
def guardCurrency (logic : String) (doc : Document) : Bool :=
  strContains "currency" logic && doc.currency.truthy

/-- Guard of the fourth pattern: `"amount > 0" in logic and amount`. -/
def guardAmount (logic : String) (doc : Document) : Bool :=
  strContains "amount > 0" logic && doc.amount.truthy

/-- The `try:` body of `_execute_rule_logic`: the four sequential guarded
pattern checks and the permissive default fallthrough; an `Except` error is an
exception reaching the method's own `except Exception` handler. -/
def execRuleBody (logic : String) (doc : Document) : Except String LogicResult :=
  if guardExpiryShipment logic doc then checkExpiryShipment doc
  else if guardShipmentPresentation logic doc then checkShipmentPresentation doc
  else if guardCurrency logic doc then .ok (checkCurrency doc.currency)
  else if guardAmount logic doc then checkAmount doc.amount
  else .ok ⟨true, "Rule logic executed successfully"⟩

/-- `ValidationEngine._execute_rule_logic`: `if not logic` short-circuit, then
the guarded body with its own `except Exception` handler turning any raised
error into `{"status": False, "details": f"Error executing logic: {e}"}`.
Total: no exception leaves the interpreter. -/
def execute_rule_logic (logic : Option String) (doc : Document) : LogicResult :=
  match logic with
  | none => ⟨false, "No logic defined for this rule"⟩
  | some l =>
    if l == "" then ⟨false, "No logic defined for this rule"⟩
    else
      match execRuleBody l doc with
      | .ok r => r
      | .error e => ⟨false, "Error executing logic: " ++ e⟩

/-- `ValidationEngine._validate_codable_rule`: run the interpreter and map the
boolean outcome to Pass/Fail, always with `confidence_score="high"`.  The
method's own `except` clause (Warning/"low") is modelled as unreachable: the
interpreter is total, and the only other expression in the `try` block is the
text truncation of a non-nullable column. -/
def validate_codable_rule (rule : Rule) (doc : Document) : ValidationResult :=
  let r := execute_rule_logic rule.logic doc
  if r.status then
    { rule_id := rule.rule_id
      rule_text := truncText 200 rule.text
      status := .pass
      details := r.details
      confidence_score := "high" }
  else
    { rule_id := rule.rule_id
      rule_text := truncText 200 rule.text
      status := .fail
      details := r.details
      confidence_score := "high" }

/-- Shape of `LLMClassifier.validate_with_ai`'s returned dictionary; the
optional fields model `.get` lookups with defaults in the dispatcher. -/
structure OracleResponse where
  status : String
  details : Option String := none
  confidence_score : Option String := none
deriving DecidableEq, Repr

/-- The `status_mapping` dictionary of `_validate_ai_assisted_rule`; `none` is
a missing key, resolved by `.get(..., WARNING)`. -/
def status_mapping (s : String) : Option ValidationStatus :=
  if s == "pass" then some .pass
  else if s == "fail" then some .fail
  else if s == "warning" then some .warning
  else none

/-- `ValidationEngine._validate_ai_assisted_rule`, with the oracle call's
outcome passed in explicitly: `Except.error e` is an exception raised by the
call (caught and converted to Warning/"low"), `Except.ok` is its returned
dictionary. -/
def validate_ai_assisted_rule (rule : Rule)
    (oracle : Except String OracleResponse) : ValidationResult :=
  match oracle with
  | .ok ai =>
    { rule_id := rule.rule_id
      rule_text := truncText 200 rule.text
      status := (status_mapping ai.status).getD .warning
      details := ai.details.getD "AI validation completed"
      confidence_score := ai.confidence_score.getD "medium" }
  | .error e =>
    { rule_id := rule.rule_id
      rule_text := truncText 200 rule.text
      status := .warning
      details := "Error in AI validation: " ++ e
      confidence_score := "low" }

/-- `ValidationEngine._validate_against_rule`: branch on the rule type.  The
oracle outcome is a function of the rule text, mirroring
`validate_with_ai(rule.text, document_data)` at a fixed document. -/
def validate_against_rule (oracle : String → Except String OracleResponse)
    (rule : Rule) (doc : Document) : ValidationResult :=
  match rule.type with
  | .codable => validate_codable_rule rule doc
  | .ai_assisted => validate_ai_assisted_rule rule (oracle rule.text)

/-- A persisted `app.models.validation.Validation` row, carried together with
the `Rule` it references (the read path joins the two tables; the FK is
`rule.id`).  `timestamp` is server-assigned at insert time. -/
structure StoredValidation where
  rule : Rule
  document_id : String
  status : ValidationStatus
  details : String
  confidence_score : String
  timestamp : PyDateTime
deriving DecidableEq, Repr

/-- `ValidationEngine._store_validation_result`: build the record from the
per-rule result and commit; on any persistence failure (`ok = false`) roll the
single insert back, leaving the database exactly as it was, and swallow the
exception.  The schema-to-model status mapping dictionary is the identity on
the shared three-variant status type. -/
def store_validation_result (ok : Bool) (db : List StoredValidation)
    (rule : Rule) (document_id : String) (now : PyDateTime)
    (result : ValidationResult) : List StoredValidation :=
  if ok then
    db ++ [{ rule := rule
             document_id := document_id
             status := result.status
             details := result.details
             confidence_score := result.confidence_score
             timestamp := now }]
  else db

/-- `app.schemas.validation.ValidationResponse`. -/
structure ValidationResponse where
  document_id : String
  overall_status : ValidationStatus
  total_rules_checked : Nat
  passed : Nat
  failed : Nat
  warnings : Nat
  results : List ValidationResult
  timestamp : PyDateTime
deriving DecidableEq, Repr

/-- Increment triple for one per-rule result: `passed += 1` on Pass,
`failed += 1` on Fail, `else warnings += 1`. -/
def countsOf : ValidationStatus → Nat × Nat × Nat
  | .pass => (1, 0, 0)
  | .fail => (0, 1, 0)
  | .warning => (0, 0, 1)

/-- The `for rule in rules` loop of `validate_document`: evaluate, store
(best-effort, indexed by position so each iteration may fail independently),
count, append.  Returns the ordered results, the three counts and the final
database state. -/
def runRules (oracle : String → Except String OracleResponse)
    (storeOk : Nat → Bool) (document_id : String) (doc : Document)
    (now : PyDateTime) :
    List Rule → Nat → List StoredValidation →
    List ValidationResult × Nat × Nat × Nat × List StoredValidation
  | [], _, db => ([], 0, 0, 0, db)
  | rule :: rest, idx, db =>
    let result := validate_against_rule oracle rule doc
    let db' := store_validation_result (storeOk idx) db rule document_id now result
    let r := runRules oracle storeOk document_id doc now rest (idx + 1) db'
    (result :: r.1,
     (countsOf result.status).1 + r.2.1,
     (countsOf result.status).2.1 + r.2.2.1,
     (countsOf result.status).2.2 + r.2.2.2.1,
     r.2.2.2.2)

/-- `ValidationEngine.validate_document` over an explicit database state: the
applicable rules are passed in (the result of `_get_applicable_rules`), the
oracle and the per-record store outcomes are explicit, `now` stands for the
run's server-assigned timestamps. -/
def validate_document (oracle : String → Except String OracleResponse)
    (storeOk : Nat → Bool) (document_id : String) (doc : Document)
    (rules : List Rule) (now : PyDateTime) (db : List StoredValidation) :
    ValidationResponse × List StoredValidation :=
  let r := runRules oracle storeOk document_id doc now rules 0 db
  ({ document_id := document_id
     overall_status := determine_overall_status r.2.1 r.2.2.1 r.2.2.2.1
     total_rules_checked := rules.length
     passed := r.2.1
     failed := r.2.2.1
     warnings := r.2.2.2.1
     results := r.1
     timestamp := now }, r.2.2.2.2)

/-- Zero-padded decimal rendering (`%04d` / `%02d` / `%06d`). -/
def padNum (w n : Nat) : String :=
  let l := (toString n).toList
  String.mk (List.replicate (w - l.length) '0' ++ l)

/-- Python `datetime.isoformat()`: `YYYY-MM-DDTHH:MM:SS`, with `.ffffff`
appended only when the microsecond component is nonzero. -/
def PyDateTime.isoformat (t : PyDateTime) : String :=
  padNum 4 t.year ++ "-" ++ padNum 2 t.month ++ "-" ++ padNum 2 t.day ++ "T"
    ++ padNum 2 t.hour ++ ":" ++ padNum 2 t.minute ++ ":" ++ padNum 2 t.second
    ++ (if t.microsecond == 0 then "" else "." ++ padNum 6 t.microsecond)

/-- The grouping key of `get_validation_history`:
`validation.timestamp.isoformat()[:19]` (the first 19 characters, i.e. through
the seconds field). -/
def timestamp_key (t : PyDateTime) : String :=
  String.mk (t.isoformat.toList.take 19)

/-- One entry of a history session's `"results"` list. -/
structure SessionEntry where
  rule_id : String
  rule_text : String
  status : ValidationStatus
  details : String
  confidence_score : String
deriving DecidableEq, Repr

def entryOfRecord (v : StoredValidation) : SessionEntry :=
  { rule_id := v.rule.rule_id
    rule_text := truncText 100 v.rule.text
    status := v.status
    details := v.details
    confidence_score := v.confidence_score }

/-- Insertion-ordered dictionary update: append the entry to the session with
this key, creating the session (stamped with the first record's timestamp) on
first sight of the key — exactly the loop body over `validation_sessions`. -/
def addToSessions :
    List (String × PyDateTime × List SessionEntry) → String → PyDateTime →
    SessionEntry → List (String × PyDateTime × List SessionEntry)
  | [], key, ts, e => [(key, ts, [e])]
  | (k, t, es) :: rest, key, ts, e =>
    if k == key then (k, t, es ++ [e]) :: rest
    else (k, t, es) :: addToSessions rest key ts e

/-- The session-building loop of `get_validation_history`, over the records in
query order.  Session membership depends only on each record's
`timestamp_key`, so it is insensitive to the query's timestamp-descending
ordering, which is therefore not re-modelled here. -/
def group_sessions (validations : List StoredValidation) :
    List (String × PyDateTime × List SessionEntry) :=
  validations.foldl
    (fun acc v => addToSessions acc (timestamp_key v.timestamp) v.timestamp
      (entryOfRecord v)) []

/-- Response of `GET /validate/history/{document_id}`. -/
structure HistoryResponse where
  document_id : String
  total_sessions : Nat
  sessions : List (PyDateTime × List SessionEntry)
deriving DecidableEq, Repr

/-- `get_validation_history`: filter the stored records by document id (the
list arrives in the query's order), 404 when none exist, otherwise group into
sessions keyed by `isoformat()[:19]`. -/
def get_validation_history (document_id : String)
    (db : List StoredValidation) : Except String HistoryResponse :=
  let validations := db.filter (fun v => v.document_id == document_id)
  if validations.isEmpty then
    .error "No validation history found for this document"
  else
    let sessions := group_sessions validations
    .ok { document_id := document_id
          total_sessions := sessions.length
          sessions := sessions.map (fun s => s.2) }

end ICC

/-- C4: the overall status resolver is a pure total function of the three
counts with strict precedence Fail > Warning > Pass: a positive failed count
forces Fail regardless of the other counts, otherwise a positive warning
count forces Warning, otherwise (including all counts zero) the result is
Pass. -/
theorem c4_overall_status_precedence (passed failed warnings : Nat) :
    (failed > 0 → ICC.determine_overall_status passed failed warnings = .fail)
    ∧ (failed = 0 → warnings > 0 →
        ICC.determine_overall_status passed failed warnings = .warning)
    ∧ (failed = 0 → warnings = 0 →
        ICC.determine_overall_status passed failed warnings = .pass) := by
  refine ⟨?_, ?_, ?_⟩ <;> intros <;> simp_all [ICC.determine_overall_status]

/-- C4 witness: the resolver evaluated at concrete counts, discharging each
hypothesis of `c4_overall_status_precedence`. -/
theorem c4_overall_status_precedence_witness :
    ICC.determine_overall_status 3 2 0 = .fail
    ∧ ICC.determine_overall_status 3 0 2 = .warning
    ∧ ICC.determine_overall_status 0 0 0 = .pass :=
  ⟨(c4_overall_status_precedence 3 2 0).1 (by decide),
   (c4_overall_status_precedence 3 0 2).2.1 rfl (by decide),
   (c4_overall_status_precedence 0 0 0).2.2 rfl rfl⟩

/-- C8: for a Codable rule whose logic is empty or absent, evaluation does not
crash: the interpreter returns `status = false` with details
"No logic defined for this rule", and this surfaces as that rule's per-rule
verdict (a Fail with the same details) rather than an exception. -/
theorem c8_empty_logic_no_crash (rule : ICC.Rule) (doc : ICC.Document)
    (h : rule.logic = none ∨ rule.logic = some "") :
    ICC.execute_rule_logic rule.logic doc =
      ⟨false, "No logic defined for this rule"⟩
    ∧ ICC.validate_codable_rule rule doc =
      { rule_id := rule.rule_id
        rule_text := ICC.truncText 200 rule.text
        status := .fail
        details := "No logic defined for this rule"
        confidence_score := "high" } := by
  rcases h with h | h <;>
    simp [ICC.validate_codable_rule, ICC.execute_rule_logic, h]

/-- C8 witness: a Codable rule with logic `some ""` evaluated at the empty
document. -/
theorem c8_empty_logic_no_crash_witness :
    ICC.execute_rule_logic (some "") {} =
      ⟨false, "No logic defined for this rule"⟩
    ∧ ICC.validate_codable_rule
        { id := 7, rule_id := "UCP600-1", text := "body", type := .codable
          logic := some "" } {} =
      { rule_id := "UCP600-1"
        rule_text := "body"
        status := .fail
        details := "No logic defined for this rule"
        confidence_score := "high" } :=
  c8_empty_logic_no_crash
    { id := 7, rule_id := "UCP600-1", text := "body", type := .codable
      logic := some "" } {} (Or.inr rfl)

/-- C3: with a non-empty logic string, when none of the four guards fires
(each guard is "substring occurs and all its required fields are truthy"), the
interpreter returns the permissive default `status = true`,
"Rule logic executed successfully"; in particular any document whose
`expiry_date` is absent falls through to this default on the logic
`"expiry_date >= shipment_date"`. -/
theorem c3_permissive_default (logic : String) (doc d : ICC.Document)
    (hne : logic ≠ "")
    (h1 : ICC.guardExpiryShipment logic doc = false)
    (h2 : ICC.guardShipmentPresentation logic doc = false)
    (h3 : ICC.guardCurrency logic doc = false)
    (h4 : ICC.guardAmount logic doc = false)
    (hd : d.expiry_date = .vnone) :
    ICC.execute_rule_logic (some logic) doc =
      ⟨true, "Rule logic executed successfully"⟩
    ∧ ICC.execute_rule_logic (some "expiry_date >= shipment_date") d =
      ⟨true, "Rule logic executed successfully"⟩ := by
  constructor
  · simp [ICC.execute_rule_logic, ICC.execRuleBody, h1, h2, h3, h4, hne]
  · have c2 : ICC.strContains "shipment_date <= presentation_date"
        "expiry_date >= shipment_date" = false := by decide
    have c3 : ICC.strContains "currency"
        "expiry_date >= shipment_date" = false := by decide
    have c4 : ICC.strContains "amount > 0"
        "expiry_date >= shipment_date" = false := by decide
    simp [ICC.execute_rule_logic, ICC.execRuleBody, ICC.guardExpiryShipment,
      ICC.guardShipmentPresentation, ICC.guardCurrency, ICC.guardAmount,
      hd, ICC.Value.truthy, c2, c3, c4]

/-- C3 witness: the end-to-end scenario — a document carrying only a shipment
date, against the logic `"expiry_date >= shipment_date"`, gets the permissive
default pass. -/
theorem c3_permissive_default_witness :
    ICC.execute_rule_logic (some "expiry_date >= shipment_date")
        ({ shipment_date := .vstr "2024-12-15" } : ICC.Document) =
      ⟨true, "Rule logic executed successfully"⟩ :=
  (c3_permissive_default "expiry_date >= shipment_date"
    ({ shipment_date := .vstr "2024-12-15" } : ICC.Document)
    ({ shipment_date := .vstr "2024-12-15" } : ICC.Document)
    (by decide) (by decide) (by decide) (by decide) (by decide) rfl).2

/-- C10: the interpreter's field-presence guards use Python truthiness, not
key presence — the number 0, the empty string and None are all falsy, a falsy
amount skips the `"amount > 0"` pattern, and in particular a document whose
amount is the number 0 falls through to the permissive default pass on the
logic `"amount > 0"`. -/
theorem c10_truthiness_guards (doc : ICC.Document) :
    ICC.Value.truthy (.vnum 0) = false
    ∧ ICC.Value.truthy (.vstr "") = false
    ∧ ICC.Value.truthy .vnone = false
    ∧ (doc.amount.truthy = false →
        ICC.execute_rule_logic (some "amount > 0") doc =
          ⟨true, "Rule logic executed successfully"⟩)
    ∧ (doc.amount = .vnum 0 →
        ICC.execute_rule_logic (some "amount > 0") doc =
          ⟨true, "Rule logic executed successfully"⟩) := by
  have c1 : ICC.strContains "expiry_date >= shipment_date" "amount > 0"
      = false := by decide
  have c2 : ICC.strContains "shipment_date <= presentation_date" "amount > 0"
      = false := by decide
  have c3 : ICC.strContains "currency" "amount > 0" = false := by decide
  refine ⟨rfl, rfl, rfl, ?_, ?_⟩
  · intro h
    simp [ICC.execute_rule_logic, ICC.execRuleBody, ICC.guardExpiryShipment,
      ICC.guardShipmentPresentation, ICC.guardCurrency, ICC.guardAmount,
      c1, c2, c3, h]
  · intro h
    simp [ICC.execute_rule_logic, ICC.execRuleBody, ICC.guardExpiryShipment,
      ICC.guardShipmentPresentation, ICC.guardCurrency, ICC.guardAmount,
      c1, c2, c3, h, ICC.Value.truthy]

/-- C10 witness: a document whose amount is the number 0 passes the rule
logic `"amount > 0"`. -/
theorem c10_truthiness_guards_witness :
    ICC.execute_rule_logic (some "amount > 0")
        ({ amount := .vnum 0 } : ICC.Document) =
      ⟨true, "Rule logic executed successfully"⟩ :=
  (c10_truthiness_guards ({ amount := .vnum 0 } : ICC.Document)).2.2.2.2 rfl

/-- C6: interpreter pattern matching is sequential and
first-applicable-match-wins: whenever a guard is the first to fire, the body
evaluates exactly that pattern's check — a function of the document alone, so
later patterns are never considered even if their substrings also occur in
the logic string. -/
theorem c6_first_applicable_match_wins (logic : String) (doc : ICC.Document) :
    (ICC.guardExpiryShipment logic doc = true →
      ICC.execRuleBody logic doc = ICC.checkExpiryShipment doc)
    ∧ (ICC.guardExpiryShipment logic doc = false →
        ICC.guardShipmentPresentation logic doc = true →
      ICC.execRuleBody logic doc = ICC.checkShipmentPresentation doc)
    ∧ (ICC.guardExpiryShipment logic doc = false →
        ICC.guardShipmentPresentation logic doc = false →
        ICC.guardCurrency logic doc = true →
      ICC.execRuleBody logic doc = .ok (ICC.checkCurrency doc.currency))
    ∧ (ICC.guardExpiryShipment logic doc = false →
        ICC.guardShipmentPresentation logic doc = false →
        ICC.guardCurrency logic doc = false →
        ICC.guardAmount logic doc = true →
      ICC.execRuleBody logic doc = ICC.checkAmount doc.amount) := by
  refine ⟨?_, ?_, ?_, ?_⟩ <;> intros <;> simp_all [ICC.execRuleBody]

/-- C6 witness: the logic string `"currency and amount > 0"` contains both
the currency and the amount substrings and the document makes both guards
applicable (currency USD, amount "-5"); the first of the two — the currency
check — wins, so the result is the currency pass, not the amount fail. -/
theorem c6_first_applicable_match_wins_witness :
    ICC.execRuleBody "currency and amount > 0"
        ({ currency := .vstr "USD", amount := .vstr "-5" } : ICC.Document) =
      .ok (ICC.checkCurrency (.vstr "USD"))
    ∧ ICC.guardAmount "currency and amount > 0"
        ({ currency := .vstr "USD", amount := .vstr "-5" } : ICC.Document)
      = true :=
  ⟨(c6_first_applicable_match_wins "currency and amount > 0"
      ({ currency := .vstr "USD", amount := .vstr "-5" } : ICC.Document)).2.2.1
    (by decide) (by decide) (by decide), by decide⟩

set_option exponentiation.threshold 1100 in
/-- `pow2_1075` is `2 ^ 1075`, half the reciprocal of the least positive
subnormal double. -/
lemma pow2_1075_eq : ICC.pow2_1075 = 2 ^ 1075 := by
  norm_num [ICC.pow2_1075]

set_option maxRecDepth 4000 in
/-- C7 counterexample: `"1e-400"` is a positive numeric string (its parsed
exact value is `1 / 10^400 > 0`), yet `float("1e-400")` underflows to `0.0`,
so the `"amount > 0"` check fails it with "Amount must be positive" — the
claim's "positive value yields a passing result" is false at this input. -/
theorem c7_counterexample :
    ICC.parseFloatStr "1e-400" = some ⟨1, 10 ^ 400⟩
    ∧ (0 : Int) < (1 : Int)
    ∧ ICC.checkAmount (.vstr "1e-400") =
        .ok ⟨false, "Amount must be positive"⟩ :=
  ⟨by decide, by decide, rfl⟩

/-- C7 amended: the `"amount > 0"` check over string amounts, with positivity
judged on the IEEE-754 double `float` produces: a numeric string whose exact
value exceeds `2^(-1075)` (converts to a positive double) passes; one whose
value is at most `2^(-1075)` — zero, negative, or positive but underflowing
to `0.0` — fails; in particular every zero-or-negative value fails; and a
non-numeric string fails with "Invalid amount format" — in every case the
check returns normally (`Except.ok`), no exception escapes the interpreter. -/
theorem c7_amount_check_amended (s : String) (f : ICC.PyFloat) :
    ICC.pow2_1075 = 2 ^ 1075
    ∧ (ICC.parseFloatStr s = some f →
        (f.den : Int) < f.num * (ICC.pow2_1075 : Int) →
      ICC.checkAmount (.vstr s) = .ok ⟨true, "Amount is positive"⟩)
    ∧ (ICC.parseFloatStr s = some f →
        f.num * (ICC.pow2_1075 : Int) ≤ (f.den : Int) →
      ICC.checkAmount (.vstr s) = .ok ⟨false, "Amount must be positive"⟩)
    ∧ (ICC.parseFloatStr s = some f → f.num ≤ 0 →
      ICC.checkAmount (.vstr s) = .ok ⟨false, "Amount must be positive"⟩)
    ∧ (ICC.parseFloatStr s = none →
      ICC.checkAmount (.vstr s) = .ok ⟨false, "Invalid amount format"⟩) := by
  refine ⟨pow2_1075_eq, ?_, ?_, ?_, ?_⟩
  · intro h1 h2
    simp_all [ICC.checkAmount, ICC.parse_float, ICC.PyFloat.posAsDouble]
  · intro h1 h2
    have h2' : ¬((f.den : Int) < f.num * (ICC.pow2_1075 : Int)) :=
      not_lt.mpr h2
    simp_all [ICC.checkAmount, ICC.parse_float, ICC.PyFloat.posAsDouble]
  · intro h1 hnum
    have h2' : ¬((f.den : Int) < f.num * (ICC.pow2_1075 : Int)) :=
      not_lt.mpr (le_trans
        (mul_nonpos_of_nonpos_of_nonneg hnum (by positivity))
        (Int.ofNat_nonneg f.den))
    simp_all [ICC.checkAmount, ICC.parse_float, ICC.PyFloat.posAsDouble]
  · intro h1
    simp_all [ICC.checkAmount, ICC.parse_float]

set_option maxRecDepth 4000 in
/-- C7 amended witness: `"100000.00"` passes, `"-50"` and `"0"` fail as
non-positive, `"1e-400"` fails by underflow, `"abc"` fails as non-numeric —
each by applying `c7_amount_check_amended` at the concrete string. -/
theorem c7_amount_check_amended_witness :
    ICC.checkAmount (.vstr "100000.00") = .ok ⟨true, "Amount is positive"⟩
    ∧ ICC.checkAmount (.vstr "-50") = .ok ⟨false, "Amount must be positive"⟩
    ∧ ICC.checkAmount (.vstr "0") = .ok ⟨false, "Amount must be positive"⟩
    ∧ ICC.checkAmount (.vstr "1e-400") =
        .ok ⟨false, "Amount must be positive"⟩
    ∧ ICC.checkAmount (.vstr "abc") = .ok ⟨false, "Invalid amount format"⟩ :=
  ⟨(c7_amount_check_amended "100000.00" ⟨10000000, 100⟩).2.1
     (by decide) (by decide),
   (c7_amount_check_amended "-50" ⟨-50, 1⟩).2.2.2.1 (by decide) (by decide),
   (c7_amount_check_amended "0" ⟨0, 1⟩).2.2.2.1 (by decide) (by decide),
   (c7_amount_check_amended "1e-400" ⟨1, 10 ^ 400⟩).2.2.1
     (by decide) (by decide),
   (c7_amount_check_amended "abc" ⟨0, 1⟩).2.2.2.2 (by decide)⟩

/-- C2 counterexample: a Codable rule whose logic triggers the date pattern on
an unparseable expiry date.  The interpreter's own `except` clause recovers
the parse error and the dispatcher turns `status=False` into a Fail with
confidence "high" — not the Warning with confidence "low" the claim states. -/
theorem c2_counterexample :
    ICC.validate_codable_rule
        { id := 1, rule_id := "UCP600-6", text := "expiry rule"
          type := .codable, logic := some "expiry_date >= shipment_date" }
        ({ expiry_date := .vstr "garbage"
           shipment_date := .vstr "2024-01-01" } : ICC.Document) =
      { rule_id := "UCP600-6", rule_text := "expiry rule"
        status := .fail
        details := "Error executing logic: Unable to parse date: garbage"
        confidence_score := "high" }
    ∧ (ICC.validate_codable_rule
          { id := 1, rule_id := "UCP600-6", text := "expiry rule"
            type := .codable, logic := some "expiry_date >= shipment_date" }
          ({ expiry_date := .vstr "garbage"
             shipment_date := .vstr "2024-01-01" } : ICC.Document)).status
        ≠ ICC.ValidationStatus.warning := by
  constructor
  · decide
  · decide

/-- C2 amended: an interpreter-level parse or logic error is recovered inside
the interpreter itself (its own `except Exception` handler) and converted into
a per-rule result with status Fail, confidence_score "high" and details
`"Error executing logic: <error>"`; the exception never propagates past the
Dispatcher (the embedded evaluation is total), and the dispatcher's outer
Warning/"low" handler is never reached by interpreter errors. -/
theorem c2_amended_interpreter_error_yields_fail_high (rule : ICC.Rule)
    (doc : ICC.Document) (l e : String)
    (hl : rule.logic = some l) (hne : l ≠ "")
    (herr : ICC.execRuleBody l doc = .error e) :
    ICC.execute_rule_logic rule.logic doc =
      ⟨false, "Error executing logic: " ++ e⟩
    ∧ ICC.validate_codable_rule rule doc =
      { rule_id := rule.rule_id
        rule_text := ICC.truncText 200 rule.text
        status := .fail
        details := "Error executing logic: " ++ e
        confidence_score := "high" } := by
  have hx : ICC.execute_rule_logic rule.logic doc =
      ⟨false, "Error executing logic: " ++ e⟩ := by
    simp [ICC.execute_rule_logic, hl, hne, herr]
  exact ⟨hx, by simp [ICC.validate_codable_rule, hx]⟩

/-- C2 amended witness: the concrete unparseable-date input, with every
hypothesis discharged by evaluation. -/
theorem c2_amended_interpreter_error_yields_fail_high_witness :
    ICC.validate_codable_rule
        { id := 2, rule_id := "UCP600-6b", text := "expiry rule"
          type := .codable, logic := some "expiry_date >= shipment_date" }
        ({ expiry_date := .vstr "31/12/2024"
           shipment_date := .vstr "2024-01-01" } : ICC.Document) =
      { rule_id := "UCP600-6b", rule_text := "expiry rule"
        status := .fail
        details := "Error executing logic: Unable to parse date: 31/12/2024"
        confidence_score := "high" } :=
  (c2_amended_interpreter_error_yields_fail_high
    { id := 2, rule_id := "UCP600-6b", text := "expiry rule"
      type := .codable, logic := some "expiry_date >= shipment_date" }
    ({ expiry_date := .vstr "31/12/2024"
       shipment_date := .vstr "2024-01-01" } : ICC.Document)
    "expiry_date >= shipment_date"
    "Unable to parse date: 31/12/2024"
    rfl (by decide) rfl).2

/-- C5: the AI-assisted dispatch maps the oracle's status string "pass" to
Pass, "fail" to Fail, "warning" to Warning, any unrecognized string to Warning
(not an error); and an exception raised by the oracle call becomes a per-rule
result with status Warning, confidence_score "low" and a details string naming
the failure. -/
theorem c5_oracle_status_mapping (rule : ICC.Rule) (ai : ICC.OracleResponse)
    (e : String) :
    (ai.status = "pass" →
      (ICC.validate_ai_assisted_rule rule (.ok ai)).status = .pass)
    ∧ (ai.status = "fail" →
      (ICC.validate_ai_assisted_rule rule (.ok ai)).status = .fail)
    ∧ (ai.status = "warning" →
      (ICC.validate_ai_assisted_rule rule (.ok ai)).status = .warning)
    ∧ (ai.status ≠ "pass" → ai.status ≠ "fail" → ai.status ≠ "warning" →
      (ICC.validate_ai_assisted_rule rule (.ok ai)).status = .warning)
    ∧ ((ICC.validate_ai_assisted_rule rule (.error e)).status = .warning
       ∧ (ICC.validate_ai_assisted_rule rule (.error e)).confidence_score
          = "low"
       ∧ (ICC.validate_ai_assisted_rule rule (.error e)).details
          = "Error in AI validation: " ++ e) := by
  refine ⟨?_, ?_, ?_, ?_, rfl, rfl, rfl⟩ <;> intros <;>
    simp_all [ICC.validate_ai_assisted_rule, ICC.status_mapping]

/-- C5 witness: a "pass" response, an unrecognized "maybe" response and a
raised oracle exception, each through `c5_oracle_status_mapping` at concrete
inputs. -/
theorem c5_oracle_status_mapping_witness :
    (ICC.validate_ai_assisted_rule
        { id := 3, rule_id := "ISBP-1", text := "judgment rule"
          type := .ai_assisted, logic := none }
        (.ok { status := "pass" })).status = .pass
    ∧ (ICC.validate_ai_assisted_rule
        { id := 3, rule_id := "ISBP-1", text := "judgment rule"
          type := .ai_assisted, logic := none }
        (.ok { status := "maybe" })).status = .warning
    ∧ (ICC.validate_ai_assisted_rule
        { id := 3, rule_id := "ISBP-1", text := "judgment rule"
          type := .ai_assisted, logic := none }
        (.error "connection refused")).details
      = "Error in AI validation: connection refused" :=
  ⟨(c5_oracle_status_mapping
      { id := 3, rule_id := "ISBP-1", text := "judgment rule"
        type := .ai_assisted, logic := none }
      { status := "pass" } "connection refused").1 rfl,
   (c5_oracle_status_mapping
      { id := 3, rule_id := "ISBP-1", text := "judgment rule"
        type := .ai_assisted, logic := none }
      { status := "maybe" } "connection refused").2.2.2.1
     (by decide) (by decide) (by decide),
   (c5_oracle_status_mapping
      { id := 3, rule_id := "ISBP-1", text := "judgment rule"
        type := .ai_assisted, logic := none }
      { status := "pass" } "connection refused").2.2.2.2.2.2⟩

/-- The report part of the dispatcher loop (results and the three counts) does
not depend on the per-record store outcomes, the loop index, or the incoming
database state. -/
lemma runRules_report_irrel (oracle : String → Except String ICC.OracleResponse)
    (document_id : String) (doc : ICC.Document) (now : ICC.PyDateTime) :
    ∀ (rules : List ICC.Rule) (s1 s2 : Nat → Bool) (i j : Nat)
      (db1 db2 : List ICC.StoredValidation),
      (ICC.runRules oracle s1 document_id doc now rules i db1).1 =
        (ICC.runRules oracle s2 document_id doc now rules j db2).1
      ∧ (ICC.runRules oracle s1 document_id doc now rules i db1).2.1 =
        (ICC.runRules oracle s2 document_id doc now rules j db2).2.1
      ∧ (ICC.runRules oracle s1 document_id doc now rules i db1).2.2.1 =
        (ICC.runRules oracle s2 document_id doc now rules j db2).2.2.1
      ∧ (ICC.runRules oracle s1 document_id doc now rules i db1).2.2.2.1 =
        (ICC.runRules oracle s2 document_id doc now rules j db2).2.2.2.1 := by
  intro rules
  induction rules with
  | nil => intro s1 s2 i j db1 db2; exact ⟨rfl, rfl, rfl, rfl⟩
  | cons r rest ih =>
    intro s1 s2 i j db1 db2
    obtain ⟨h1, h2, h3, h4⟩ :=
      ih s1 s2 (i + 1) (j + 1)
        (ICC.store_validation_result (s1 i) db1 r document_id now
          (ICC.validate_against_rule oracle r doc))
        (ICC.store_validation_result (s2 j) db2 r document_id now
          (ICC.validate_against_rule oracle r doc))
    simp only [ICC.runRules]
    exact ⟨by rw [h1], by rw [h2], by rw [h3], by rw [h4]⟩

/-- The dispatcher loop produces exactly one result per selected rule. -/
lemma runRules_length (oracle : String → Except String ICC.OracleResponse)
    (s : Nat → Bool) (document_id : String) (doc : ICC.Document)
    (now : ICC.PyDateTime) :
    ∀ (rules : List ICC.Rule) (i : Nat) (db : List ICC.StoredValidation),
      (ICC.runRules oracle s document_id doc now rules i db).1.length
        = rules.length := by
  intro rules
  induction rules with
  | nil => intro i db; rfl
  | cons r rest ih =>
    intro i db
    simp only [ICC.runRules, List.length_cons]
    rw [ih]

/-- C9: a persistence failure is recovered with a rollback of that single
record's write (the database is left exactly as it was), and the returned
report is untouched by store outcomes: for every assignment of per-record
store failures the run returns the same complete report, with one per-rule
result for every selected rule. -/
theorem c9_persistence_failure_isolated
    (oracle : String → Except String ICC.OracleResponse)
    (storeOk storeOk' : Nat → Bool) (document_id : String)
    (doc : ICC.Document) (rules : List ICC.Rule) (now : ICC.PyDateTime)
    (db db' : List ICC.StoredValidation)
    (rule : ICC.Rule) (result : ICC.ValidationResult) :
    ICC.store_validation_result false db rule document_id now result = db
    ∧ (ICC.validate_document oracle storeOk document_id doc rules now db).1 =
      (ICC.validate_document oracle storeOk' document_id doc rules now db').1
    ∧ (ICC.validate_document oracle storeOk document_id doc rules now
        db).1.results.length = rules.length := by
  obtain ⟨h1, h2, h3, h4⟩ :=
    runRules_report_irrel oracle document_id doc now rules storeOk storeOk'
      0 0 db db'
  refine ⟨rfl, ?_, ?_⟩
  · simp only [ICC.validate_document]
    rw [h1, h2, h3, h4]
  · simp only [ICC.validate_document]
    exact runRules_length oracle storeOk document_id doc now rules 0 db

/-- C1 (evaluating the code at the failing input): the audit-trail grouping
key is `isoformat()[:19]`, which retains the seconds field.  Two records whose
timestamps differ only in the seconds component (10:00:00 vs 10:00:30 on the
same minute) therefore get distinct keys and are split into two sessions,
against the claimed whole-minute truncation; only a sub-second-only
difference is merged into one session. -/
theorem c1_session_grouping_counts_seconds (r : ICC.Rule)
    (did det conf : String) (st : ICC.ValidationStatus) :
    ICC.timestamp_key ⟨2024, 1, 1, 10, 0, 0, 0⟩
      ≠ ICC.timestamp_key ⟨2024, 1, 1, 10, 0, 30, 0⟩
    ∧ (ICC.group_sessions
        [⟨r, did, st, det, conf, ⟨2024, 1, 1, 10, 0, 0, 0⟩⟩,
         ⟨r, did, st, det, conf, ⟨2024, 1, 1, 10, 0, 30, 0⟩⟩]).length = 2
    ∧ ICC.timestamp_key ⟨2024, 1, 1, 10, 0, 5, 111111⟩
      = ICC.timestamp_key ⟨2024, 1, 1, 10, 0, 5, 999999⟩
    ∧ (ICC.group_sessions
        [⟨r, did, st, det, conf, ⟨2024, 1, 1, 10, 0, 5, 111111⟩⟩,
         ⟨r, did, st, det, conf, ⟨2024, 1, 1, 10, 0, 5, 999999⟩⟩]).length
      = 1 := by
  have hk : (ICC.timestamp_key ⟨2024, 1, 1, 10, 0, 0, 0⟩
      == ICC.timestamp_key ⟨2024, 1, 1, 10, 0, 30, 0⟩) = false := by decide
  have hk2 : (ICC.timestamp_key ⟨2024, 1, 1, 10, 0, 5, 111111⟩
      == ICC.timestamp_key ⟨2024, 1, 1, 10, 0, 5, 999999⟩) = true := by decide
  refine ⟨by decide, ?_, by decide, ?_⟩
  · simp [ICC.group_sessions, ICC.addToSessions, hk]
  · simp [ICC.group_sessions, ICC.addToSessions, hk2]
